import Mathlib

/-!
Verification of the contact-API backend (FastAPI contacts/auth service).

The definitions below are a shallow embedding of the repository's Python
code: SQLAlchemy tables become lists of records, `select ... filter`
becomes `List.filter` / `List.find?`, async endpoints become pure
functions returning `Except` for raised exceptions, and the JWT codec
becomes a structured token type (two encoded JWT strings are equal
exactly when their payloads are equal, since signing is deterministic).
Python dynamic typing and dictionary access are modelled explicitly
where the code depends on them (attribute access on a value that may
not be an object, `payload["key"]` on a claims dictionary).
-/

/-- A calendar date, mirroring Python `datetime.date`. -/
structure Date where
  year : Nat
  month : Nat
  day : Nat
deriving DecidableEq, Repr

/-- Gregorian leap-year rule, as used by Python `datetime`. -/
def isLeap (y : Nat) : Bool :=
  (y % 4 == 0 && y % 100 != 0) || y % 400 == 0

/-- Number of days in a month of a given year. -/
def daysInMonth (y m : Nat) : Nat :=
  if m == 2 then (if isLeap y then 29 else 28)
  else if m == 4 || m == 6 || m == 9 || m == 11 then 30
  else 31

/-- The day after a given date. -/
def Date.next (d : Date) : Date :=
  if d.day < daysInMonth d.year d.month then ⟨d.year, d.month, d.day + 1⟩
  else if d.month < 12 then ⟨d.year, d.month + 1, 1⟩
  else ⟨d.year + 1, 1, 1⟩

/-- `d + timedelta(days = n)`. -/
def Date.addDays (d : Date) : Nat → Date
  | 0 => d
  | n + 1 => (Date.next d).addDays n

/-- Chronological comparison of dates (`<=` on Python dates). -/
def Date.leb (a b : Date) : Bool :=
  decide (a.year < b.year) ||
    (a.year == b.year &&
      (decide (a.month < b.month) ||
        (a.month == b.month && decide (a.day ≤ b.day))))

/-- A row of the `ContactBook` table (`src/entity/models.py`, fields as
used by the repository and its tests: id, user_id, name, secondname,
email, phone, born_day, additional_data). -/
structure ContactBook where
  id : Nat
  user_id : Nat
  name : String
  secondname : String
  email : String
  phone : String
  born_day : Date
  additional_data : Option String
deriving DecidableEq, Repr

/-- Case-insensitive substring test: `column ILIKE '%pat%'`. -/
def scanContains (pat : List Char) : List Char → Bool
  | [] => pat.isEmpty
  | a :: as => pat.isPrefixOf (a :: as) || scanContains pat as

/-- `field.ilike('%pat%')` for a plain pattern without wildcards. -/
def ilikeContains (field pat : String) : Bool :=
  scanContains pat.toLower.toList field.toLower.toList

/-- One optional `ilike` filter step of `get_contacts`: Python applies
the filter only when the argument is truthy (`if name:`), so both
`None` and the empty string skip it. -/
def ilikeFilter (get : ContactBook → String) (pat : Option String)
    (l : List ContactBook) : List ContactBook :=
  match pat with
  | none => l
  | some p => if p = "" then l else l.filter (fun c => ilikeContains (get c) p)

/-- The `filter_by(id=contact_id, user_id=user_id)` predicate shared by
`get_contact_by_id`, `update_contact` and `delete_contact`. -/
def ownedBy (contact_id user_id : Nat) (c : ContactBook) : Bool :=
  c.id == contact_id && c.user_id == user_id

/-- `src/repository/contacts.py get_contact_by_id`: select the contact
with the given id owned by the given user, or `None`. -/
def get_contact_by_id (contact_id : Nat) (db : List ContactBook)
    (user_id : Nat) : Option ContactBook :=
  db.find? (ownedBy contact_id user_id)

/-- `src/repository/contacts.py get_contacts_birthday`: the upcoming-
birthday query, filtering on the stored `born_day` date exactly as the
SQL in the source does (full-date comparisons, including the year). -/
def get_contacts_birthday (db : List ContactBook) (user_id : Nat)
    (today : Date) : List ContactBook :=
  let seven_days_later := today.addDays 7
  db.filter (fun c =>
    c.user_id == user_id &&
      ((Date.leb today c.born_day && Date.leb c.born_day seven_days_later) ||
        (Date.leb ⟨today.year, 1, 1⟩ c.born_day &&
          Date.leb c.born_day ⟨today.year, 1, 7⟩ &&
          today.month == 12)))

/-- A claims-dictionary entry: the key can be absent, present with
value `None`, or present with a value. -/
inductive Entry (α : Type) where
  | absent
  | null
  | val (a : α)
deriving DecidableEq, Repr

/-- Errors the embedded endpoints can surface.  The `HTTPException`s
raised by the code are told apart by their detail string; an uncaught
Python exception (`AttributeError`, `KeyError`, a cache failure)
surfaces as a generic 500. -/
inductive RErr where
  /-- 401 "Could not validate credentials" (JWTError branches). -/
  | unauthorizedValidate
  /-- 401 "Invalid scope for token" (`decode_refresh_token`). -/
  | unauthorizedScope
  /-- 401 "Invalid refresh token" (`refresh_token` route). -/
  | unauthorizedRefresh
  /-- 401 credentials_exception of `get_current_user`. -/
  | unauthorizedCred
  /-- 400 "Verification error" (`confirmed_email` route). -/
  | verificationError
  /-- 422 "Invalid token for email verification". -/
  | unprocessable
  /-- Uncaught `KeyError` from `payload["..."]`. -/
  | keyError
  /-- Uncaught `AttributeError` from attribute access on `None`/`str`. -/
  | attributeError
  /-- Uncaught failure of the redis client (`cache.get`). -/
  | cacheFailure
  /-- HTTPException(500) raised by the contacts list route handler. -/
  | internal500
deriving DecidableEq, Repr

/-- HTTP status each error surfaces with (uncaught exceptions become a
framework 500 response). -/
def RErr.status : RErr → Nat
  | .unauthorizedValidate => 401
  | .unauthorizedScope => 401
  | .unauthorizedRefresh => 401
  | .unauthorizedCred => 401
  | .verificationError => 400
  | .unprocessable => 422
  | .keyError => 500
  | .attributeError => 500
  | .cacheFailure => 500
  | .internal500 => 500

/-- The JWT payload as built and consumed by `src/services/auth.py`:
`sub` and `scope` claims (either may be absent from a presented token;
`create_email_token` itself sets no scope), issued-at and expiry. -/
structure Payload where
  sub : Entry String
  scope : Entry String
  iat : Nat
  exp : Nat
deriving DecidableEq, Repr

/-- An encoded token string: either a validly signed encoding of a
payload, or a string that fails signature/format verification.  Signing
is deterministic, so payload equality is token-string equality. -/
inductive TokenStr where
  | valid (p : Payload)
  | invalid
deriving DecidableEq, Repr

/-- `jose.jwt.decode`: rejects a forged/garbled token and an expired
one with `JWTError`, otherwise yields the claims dictionary. -/
def jwtDecode (tok : TokenStr) (now : Nat) : Except Unit Payload :=
  match tok with
  | .invalid => .error ()
  | .valid p => if p.exp ≤ now then .error () else .ok p

/-- `payload["key"]` on a claims entry: `KeyError` when the key is
absent, Python `None` when stored as null, the value otherwise. -/
def entryGet {α : Type} : Entry α → Except RErr (Option α)
  | .absent => .error .keyError
  | .null => .ok none
  | .val a => .ok (some a)

/-- A row of the `User` table (`src/entity/models.py`, fields as used
by the repository, routes and tests). -/
structure User where
  id : Nat
  username : String
  email : String
  password : String
  confirmed : Bool
  avatar : Option String
  refresh_token : Option TokenStr
deriving DecidableEq, Repr

/-- `src/repository/users.py get_user_by_email`. -/
def get_user_by_email (email : String) (db : List User) : Option User :=
  db.find? (fun u => u.email == email)

/-- The same lookup when the email came out of a token payload and may
be Python `None` (`filter_by(email=None)` matches no row of the
non-null email column). -/
def get_user_by_email_opt (email : Option String) (db : List User) :
    Option User :=
  match email with
  | none => none
  | some e => get_user_by_email e db

/-- `src/repository/users.py update_token`: store a new refresh-token
value on the user record fetched for the given email. -/
def update_token (email : String) (tok : Option TokenStr)
    (db : List User) : List User :=
  db.map (fun u => if u.email == email then { u with refresh_token := tok } else u)

/-- `src/repository/users.py confirmed_email`: mark the user with the
given email confirmed. -/
def confirmed_email (email : String) (db : List User) : List User :=
  db.map (fun u => if u.email == email then { u with confirmed := true } else u)

/-- `Auth.create_access_token` with the default 15-minute expiry:
claims sub, scope="access_token", iat, exp. -/
def create_access_token (email : String) (now : Nat) : TokenStr :=
  .valid ⟨.val email, .val "access_token", now, now + 15 * 60⟩

/-- `Auth.create_refresh_token` with the default 7-day expiry:
claims sub, scope="refresh_token", iat, exp. -/
def create_refresh_token (email : String) (now : Nat) : TokenStr :=
  .valid ⟨.val email, .val "refresh_token", now, now + 7 * 24 * 60 * 60⟩

/-- `Auth.create_email_token`: 1-day expiry, sub and iat/exp claims
only — the code sets no scope claim at all. -/
def create_email_token (email : String) (now : Nat) : TokenStr :=
  .valid ⟨.val email, .absent, now, now + 24 * 60 * 60⟩

/-- `Auth.decode_refresh_token`: decode, demand scope "refresh_token",
then return the sub claim.  `except` catches only `JWTError`, so a
`KeyError` from a payload missing "scope" or "sub" escapes uncaught. -/
def decode_refresh_token (tok : TokenStr) (now : Nat) :
    Except RErr (Option String) :=
  match jwtDecode tok now with
  | .error _ => .error .unauthorizedValidate
  | .ok p =>
    match entryGet p.scope with
    | .error e => .error e
    | .ok sc =>
      if sc = some "refresh_token" then
        match entryGet p.sub with
        | .error e => .error e
        | .ok sub => .ok sub
      else .error .unauthorizedScope

/-- `Auth.get_email_from_token`: decode and return the sub claim; no
scope check of any kind.  `except` catches only `JWTError` (422), a
`KeyError` from an absent "sub" escapes uncaught. -/
def get_email_from_token (tok : TokenStr) (now : Nat) :
    Except RErr (Option String) :=
  match jwtDecode tok now with
  | .error _ => .error .unprocessable
  | .ok p =>
    match entryGet p.sub with
    | .error e => .error e
    | .ok sub => .ok sub

/-- Outcome of one redis `get`: a miss, a cached (pickled) user, or a
client failure (connection refused, timeout, ...). -/
inductive CacheRes where
  | miss
  | hit (u : User)
  | failure

/-- `self.cache.get(user_hash)`: the redis read used by
`get_current_user`.  A client failure is not caught anywhere. -/
def cacheGet (cache : String → CacheRes) (k : String) :
    Except RErr (Option User) :=
  match cache k with
  | .failure => .error .cacheFailure
  | .miss => .ok none
  | .hit u => .ok (some u)

/-- `Auth.get_current_user` (`src/services/auth.py`): decode the access
token, check the scope, read the subject, consult the cache first and
fall back to the datastore.  The `try` catches only `JWTError`; the
`credentials_exception` raised inside it propagates as 401, a
`KeyError` from `payload["scope"]` / `payload["sub"]` propagates
uncaught, and so does a redis failure. -/
def get_current_user (tok : TokenStr) (now : Nat)
    (cache : String → CacheRes) (db : List User) : Except RErr User :=
  match jwtDecode tok now with
  | .error _ => .error .unauthorizedCred
  | .ok p =>
    match entryGet p.scope with
    | .error e => .error e
    | .ok sc =>
      if sc = some "access_token" then
        match entryGet p.sub with
        | .error e => .error e
        | .ok emailOpt =>
          match emailOpt with
          | none => .error .unauthorizedCred
          | some email =>
            match cacheGet cache email with
            | .error e => .error e
            | .ok (some u) => .ok u
            | .ok none =>
              match get_user_by_email email db with
              | none => .error .unauthorizedCred
              | some u => .ok u
      else .error .unauthorizedCred

/-- The access/refresh pair returned by login and refresh. -/
structure TokenPair where
  access_token : TokenStr
  refresh_token : TokenStr
deriving DecidableEq, Repr

/-- `GET /auth/refresh_token` (`src/routes/auth.py refresh_token`):
decode with expected scope refresh, fetch the user by the decoded
email, clear the stored token and fail 401 on mismatch, rotate both
tokens on success.  On a decoded email with no user row the code
evaluates `user.refresh_token` on `None` — an uncaught
`AttributeError`.  The second component is the user table after the
request. -/
def refresh_token_route (tok : TokenStr) (now : Nat) (db : List User) :
    Except RErr TokenPair × List User :=
  match decode_refresh_token tok now with
  | .error e => (.error e, db)
  | .ok emailOpt =>
    match emailOpt, get_user_by_email_opt emailOpt db with
    | _, none => (.error .attributeError, db)
    | none, some _ => (.error .attributeError, db)
    | some email, some user =>
      if user.refresh_token ≠ some tok then
        (.error .unauthorizedRefresh, update_token email none db)
      else
        let access := create_access_token email now
        let refresh := create_refresh_token email now
        (.ok ⟨access, refresh⟩, update_token email (some refresh) db)

/-- Result messages of the email-confirmation endpoints. -/
inductive Msg where
  | alreadyConfirmed
  | emailConfirmed
  | checkEmail
deriving DecidableEq, Repr

/-- `GET /auth/confirmed_email/{token}` (`src/routes/auth.py`):
extract the email from the token (no scope check — see
`get_email_from_token`), 400 if no such user, idempotent on an
already-confirmed account, otherwise flip the confirmed flag. -/
def confirmed_email_route (tok : TokenStr) (now : Nat) (db : List User) :
    Except RErr Msg × List User :=
  match get_email_from_token tok now with
  | .error e => (.error e, db)
  | .ok emailOpt =>
    match emailOpt, get_user_by_email_opt emailOpt db with
    | _, none => (.error .verificationError, db)
    | none, some _ => (.error .verificationError, db)
    | some email, some user =>
      if user.confirmed then (.ok .alreadyConfirmed, db)
      else (.ok .emailConfirmed, confirmed_email email db)

/-- `POST /auth/request_email` (`src/routes/auth.py request_email`):
the code reads `user.confirmed` before its `if user:` guard, so an
email with no user row hits an uncaught `AttributeError` on `None`. -/
def request_email_route (email : String) (db : List User) :
    Except RErr Msg :=
  match get_user_by_email email db with
  | none => .error .attributeError
  | some user =>
    if user.confirmed then .ok .alreadyConfirmed
    else .ok .checkEmail

/-- `ContactBookSchemaUpdateSchema` with `exclude_unset=True`.
Modelled from the spec: `src/schemas/contact.py` is not in the tree;
the spec gives the contact fields (name / secondname / email / phone /
birth-date / free-form note) and "update (partial, only supplied
fields)", and the unit tests exercise exactly these six fields.  An
outer `none` means the field was not supplied; `additional_data` may
be supplied as null. -/
structure ContactUpdate where
  name : Option String
  secondname : Option String
  email : Option String
  phone : Option String
  born_day : Option Date
  additional_data : Option (Option String)
deriving DecidableEq, Repr

/-- The `setattr` loop of `update_contact` over
`body.dict(exclude_unset=True)`: supplied fields overwrite, the rest
keep their stored value; `id` and `user_id` are not schema fields. -/
def applyUpdate (b : ContactUpdate) (c : ContactBook) : ContactBook :=
  { c with
    name := b.name.getD c.name
    secondname := b.secondname.getD c.secondname
    email := b.email.getD c.email
    phone := b.phone.getD c.phone
    born_day := b.born_day.getD c.born_day
    additional_data := b.additional_data.getD c.additional_data }

/-- `src/repository/contacts.py update_contact`: fetch by id and
owner, apply the supplied fields, commit (the ORM updates the row with
that primary key).  Returns the updated contact (or `None`) and the
table after the request. -/
def update_contact (contact_id : Nat) (b : ContactUpdate)
    (db : List ContactBook) (user_id : Nat) :
    Option ContactBook × List ContactBook :=
  match db.find? (ownedBy contact_id user_id) with
  | none => (none, db)
  | some c =>
    let c' := applyUpdate b c
    (some c', db.map (fun x => if x.id == c.id then c' else x))

/-- `src/repository/contacts.py delete_contact`: fetch by id and
owner; delete the fetched row (keyed by its primary key) only when it
exists.  Returns the deleted contact (or `None`) and the table after
the request. -/
def delete_contact (contact_id : Nat) (db : List ContactBook)
    (user_id : Nat) : Option ContactBook × List ContactBook :=
  match db.find? (ownedBy contact_id user_id) with
  | none => (none, db)
  | some c => (some c, db.filter (fun x => x.id != c.id))

/-- `DELETE /contacts/{contact_id}` (`src/routes/contacts.py`): calls
the repository delete, ignores its result and returns 204 No Content
unconditionally. -/
def delete_contact_route (contact_id : Nat) (db : List ContactBook)
    (user_id : Nat) : Nat × List ContactBook :=
  (204, (delete_contact contact_id db user_id).2)

/-- `src/repository/contacts.py get_contacts` called with its intended
argument types (as the unit tests call it): base filter on the
authenticated user's rows, optional user_id / name / secondname /
email filters, then offset and limit. -/
def get_contacts (limit offset : Nat) (db : List ContactBook)
    (user : User) (name secondname email : Option String)
    (user_id : Option Nat) : List ContactBook :=
  let l0 := db.filter (fun c => c.user_id == user.id)
  let l1 := match user_id with
    | none => l0
    | some uid => l0.filter (fun c => c.user_id == uid)
  let l2 := ilikeFilter (fun c => c.name) name l1
  let l3 := ilikeFilter (fun c => c.secondname) secondname l2
  let l4 := ilikeFilter (fun c => c.email) email l3
  (l4.drop offset).take limit

/-- A Python value in the `user` / `email` argument positions of
`get_contacts` as the route actually calls it (dynamic typing). -/
inductive PyVal where
  | noneV
  | strV (s : String)
  | intV (n : Nat)
  | userV (u : User)
deriving DecidableEq, Repr

/-- Attribute access `x.id`: only a `User` object has it; on `None`,
a string or an int it raises `AttributeError`. -/
def pyGetId : PyVal → Except RErr Nat
  | .userV u => .ok u.id
  | _ => .error .attributeError

/-- An optional string route parameter placed in a dynamically typed
argument slot. -/
def optStrToPy : Option String → PyVal
  | none => .noneV
  | some s => .strV s

/-- `src/repository/contacts.py get_contacts` under Python's dynamic
typing: the first executed expression is `ContactBook.user_id ==
user.id`, so whatever sits in the `user` slot has `.id` evaluated
before any other filter. -/
def get_contacts_dyn (limit offset : Nat) (db : List ContactBook)
    (user : PyVal) (name secondname : Option String) (email : PyVal)
    (user_id : Option Nat) : Except RErr (List ContactBook) :=
  match pyGetId user with
  | .error e => .error e
  | .ok baseId =>
    let l0 := db.filter (fun c => c.user_id == baseId)
    let l1 := match user_id with
      | none => l0
      | some uid => l0.filter (fun c => c.user_id == uid)
    let l2 := ilikeFilter (fun c => c.name) name l1
    let l3 := ilikeFilter (fun c => c.secondname) secondname l2
    let l4 := match email with
      | .noneV => l3
      | .strV s => ilikeFilter (fun c => c.email) (some s) l3
      | .intV n =>
        if n == 0 then l3
        else l3.filter (fun c => ilikeContains c.email (toString n))
      | .userV _ => l3
    .ok ((l4.drop offset).take limit)

/-- `GET /contacts/` (`src/routes/contacts.py get_contacts`): the
route passes `(limit, offset, db, name, secondname, email,
current_user.id)` positionally into the repository signature
`(limit, offset, db, user, name, secondname, email, user_id)`, so the
`name` filter lands in the `user` slot and `current_user.id` in the
`email` slot; any exception is caught and re-raised as a 500. -/
def get_contacts_route (limit offset : Nat)
    (name secondname email : Option String) (current_user : User)
    (db : List ContactBook) : Except RErr (List ContactBook) :=
  match get_contacts_dyn limit offset db (optStrToPy name) secondname
      email (.intV current_user.id) none with
  | .error _ => .error .internal500
  | .ok l => .ok l

/-! ## Helper lemmas -/

theorem ilikeFilter_subset (g : ContactBook → String) (p : Option String)
    (l : List ContactBook) : ilikeFilter g p l ⊆ l := by
  cases p with
  | none => exact fun x hx => hx
  | some s =>
    by_cases h : s = ""
    · simp [ilikeFilter, h]
    · simp only [ilikeFilter, if_neg h]
      exact (List.filter_sublist _).subset

theorem mem_get_contacts_owner {limit offset : Nat} {db : List ContactBook}
    {user : User} {nm sn em : Option String} {uidO : Option Nat}
    {c : ContactBook}
    (h : c ∈ get_contacts limit offset db user nm sn em uidO) :
    c.user_id = user.id := by
  simp only [get_contacts] at h
  have h3 := List.drop_subset _ _ (List.take_subset _ _ h)
  have h4 := ilikeFilter_subset _ _ _ h3
  have h5 := ilikeFilter_subset _ _ _ h4
  have h6 := ilikeFilter_subset _ _ _ h5
  have h0 : c ∈ db.filter (fun c => c.user_id == user.id) := by
    cases uidO with
    | none => exact h6
    | some uid => exact (List.filter_sublist _).subset h6
  have := (List.mem_filter.mp h0).2
  exact by simpa using this

theorem ownedBy_find_none {contact_id user_id : Nat} {db : List ContactBook}
    (h : ∀ x ∈ db, ¬(x.id = contact_id ∧ x.user_id = user_id)) :
    db.find? (ownedBy contact_id user_id) = none := by
  refine List.find?_eq_none.mpr (fun x hx hpx => ?_)
  unfold ownedBy at hpx
  rcases Bool.and_eq_true_iff.mp hpx with ⟨h1, h2⟩
  exact h x hx ⟨by simpa using h1, by simpa using h2⟩

/-! ## Claims about the contact repository -/

/-- C2: a contact owned by user A is invisible to any other user B:
get-by-id, update and delete invoked with B's id on A's contact return
`None` and leave the table untouched, and the listing run as B never
contains A's contact. -/
theorem contact_isolation (db : List ContactBook) (c : ContactBook)
    (_hmem : c ∈ db) (B : Nat) (hBA : B ≠ c.user_id)
    (huniq : ∀ c' ∈ db, c'.id = c.id → c' = c)
    (b : ContactUpdate) (limit offset : Nat) (buser : User)
    (hbuser : buser.id = B) (nm sn em : Option String)
    (uidO : Option Nat) :
    get_contact_by_id c.id db B = none ∧
    update_contact c.id b db B = (none, db) ∧
    delete_contact c.id db B = (none, db) ∧
    c ∉ get_contacts limit offset db buser nm sn em uidO := by
  have hnone : db.find? (ownedBy c.id B) = none := by
    refine ownedBy_find_none (fun x hx hpx => ?_)
    have hxc : x = c := huniq x hx hpx.1
    exact hBA (hxc ▸ hpx.2).symm
  refine ⟨hnone, ?_, ?_, ?_⟩
  · unfold update_contact
    rw [hnone]
  · unfold delete_contact
    rw [hnone]
  · intro hin
    have := mem_get_contacts_owner hin
    rw [hbuser] at this
    exact hBA this.symm

/-- Sample contact and user records for closed instances. -/
def cAlex : ContactBook := ⟨1, 1, "Alex", "Smith", "alex@x", "+1", ⟨1990, 12, 30⟩, none⟩

def cJul : ContactBook := ⟨2, 1, "Bea", "Ng", "bea@x", "+2", ⟨1985, 7, 1⟩, none⟩

def uBob : User := ⟨2, "bob", "bob@x", "pw", true, none, none⟩

/-- Closed instance of `contact_isolation`. -/
theorem contact_isolation_witness :
    get_contact_by_id 1 [cAlex] 2 = none ∧
    update_contact 1 ⟨some "Zoe", none, none, none, none, none⟩ [cAlex] 2 = (none, [cAlex]) ∧
    delete_contact 1 [cAlex] 2 = (none, [cAlex]) ∧
    cAlex ∉ get_contacts 10 0 [cAlex] uBob none none none none :=
  contact_isolation [cAlex] cAlex (List.mem_singleton.mpr rfl) 2 (by decide)
    (by intro c' hc' _; simpa using hc')
    ⟨some "Zoe", none, none, none, none, none⟩ 10 0 uBob rfl none none none none

/-- C9: a partial update writes exactly the supplied fields of the
fetched contact; every unsupplied field, and in particular `id` and
`user_id`, keeps its stored value, and every other row of the table is
untouched. -/
theorem update_contact_partial_fields (contact_id user_id : Nat)
    (b : ContactUpdate) (db : List ContactBook) (c : ContactBook)
    (hfind : db.find? (ownedBy contact_id user_id) = some c) :
    ∃ c', (update_contact contact_id b db user_id).1 = some c' ∧
      c'.id = c.id ∧ c'.user_id = c.user_id ∧
      c'.name = b.name.getD c.name ∧
      c'.secondname = b.secondname.getD c.secondname ∧
      c'.email = b.email.getD c.email ∧
      c'.phone = b.phone.getD c.phone ∧
      c'.born_day = b.born_day.getD c.born_day ∧
      c'.additional_data = b.additional_data.getD c.additional_data ∧
      ∀ x ∈ db, x.id ≠ c.id → x ∈ (update_contact contact_id b db user_id).2 := by
  have h2 : update_contact contact_id b db user_id =
      (some (applyUpdate b c),
        db.map (fun x => if x.id == c.id then applyUpdate b c else x)) := by
    unfold update_contact
    rw [hfind]
  refine ⟨applyUpdate b c, by rw [h2], rfl, rfl, rfl, rfl, rfl, rfl, rfl, rfl, ?_⟩
  intro x hx hne
  rw [h2]
  refine List.mem_map.mpr ⟨x, hx, ?_⟩
  simp [hne]

/-- Closed instance of `update_contact_partial_fields`: update only
the secondname of a stored contact. -/
theorem update_contact_partial_fields_witness :
    ∃ c', (update_contact 1 ⟨none, some "Johnson", none, none, none, none⟩ [cAlex] 1).1 = some c' ∧
      c'.id = cAlex.id ∧ c'.user_id = cAlex.user_id ∧
      c'.name = (none : Option String).getD cAlex.name ∧
      c'.secondname = (some "Johnson" : Option String).getD cAlex.secondname ∧
      c'.email = (none : Option String).getD cAlex.email ∧
      c'.phone = (none : Option String).getD cAlex.phone ∧
      c'.born_day = (none : Option Date).getD cAlex.born_day ∧
      c'.additional_data = (none : Option (Option String)).getD cAlex.additional_data ∧
      ∀ x ∈ [cAlex], x.id ≠ cAlex.id →
        x ∈ (update_contact 1 ⟨none, some "Johnson", none, none, none, none⟩ [cAlex] 1).2 :=
  update_contact_partial_fields 1 1 ⟨none, some "Johnson", none, none, none, none⟩
    [cAlex] cAlex (by decide)

/-- C10: deleting a contact id that no row owned by the calling user
has still answers 204 No Content, and the table is unchanged. -/
theorem delete_missing_contact_204_noop (contact_id user_id : Nat)
    (db : List ContactBook)
    (h : ∀ x ∈ db, ¬(x.id = contact_id ∧ x.user_id = user_id)) :
    delete_contact_route contact_id db user_id = (204, db) := by
  unfold delete_contact_route delete_contact
  rw [ownedBy_find_none h]

/-- Closed instance of `delete_missing_contact_204_noop`. -/
theorem delete_missing_contact_204_noop_witness :
    delete_contact_route 99 [cAlex] 1 = (204, [cAlex]) :=
  delete_missing_contact_204_noop 99 1 [cAlex] (by decide)

/-- C3 (divergence witness): the birthday query compares the stored
birth date — year included — against the calendar window, so a contact
born Dec 30 1990 is not returned for a query on Dec 28 2025 (the claim
and the function's own documentation say it must be), and a contact
born Jul 1 is not returned on Jan 1. -/
theorem birthday_query_full_date_comparison :
    get_contacts_birthday [cAlex] 1 ⟨2025, 12, 28⟩ = [] ∧
    get_contacts_birthday [cJul] 1 ⟨2026, 1, 1⟩ = [] ∧
    cAlex.born_day = ⟨1990, 12, 30⟩ ∧ cAlex.user_id = 1 := by
  refine ⟨?_, ?_, rfl, rfl⟩ <;> rfl

/-- C4 (divergence witness): the contacts list route passes its filter
arguments positionally into the repository signature, so the string
(or `None`) `name` filter lands in the `user` parameter, `user.id`
raises `AttributeError`, and the handler's catch-all turns every
request into a 500 — for all limits, offsets, filters and users. -/
theorem get_contacts_route_always_500 (limit offset : Nat)
    (name secondname email : Option String) (current_user : User)
    (db : List ContactBook) :
    get_contacts_route limit offset name secondname email current_user db =
      .error .internal500 ∧ RErr.status .internal500 = 500 := by
  cases name <;> exact ⟨rfl, rfl⟩

/-! ## Claims about the auth service -/

theorem get_user_by_email_update_token (e : String) (t : Option TokenStr)
    (db : List User) :
    get_user_by_email e (update_token e t db) =
      (get_user_by_email e db).map (fun u => { u with refresh_token := t }) := by
  unfold get_user_by_email update_token
  rw [List.find?_map]
  have hcomp : ((fun u : User => u.email == e) ∘
      fun u : User => if u.email == e then { u with refresh_token := t } else u) =
      fun u : User => u.email == e := by
    funext u
    by_cases h : u.email = e
    · simp [h]
    · simp [h]
  rw [hcomp]
  cases hfind : db.find? (fun u : User => u.email == e) with
  | none => rfl
  | some u =>
    have hp : u.email = e := by simpa using List.find?_some hfind
    simp [hp]

theorem decode_refresh_token_ok (p : Payload) (now : Nat) (email : String)
    (hscope : p.scope = .val "refresh_token") (hsub : p.sub = .val email)
    (hexp : now < p.exp) :
    decode_refresh_token (.valid p) now = .ok (some email) := by
  simp [decode_refresh_token, jwtDecode, entryGet, hscope, hsub,
    Nat.not_le.mpr hexp]

theorem refresh_route_mismatch (u : User) (db : List User) (now : Nat)
    (p : Payload) (hfind : get_user_by_email u.email db = some u)
    (hscope : p.scope = .val "refresh_token") (hsub : p.sub = .val u.email)
    (hexp : now < p.exp) (hne : u.refresh_token ≠ some (.valid p)) :
    (refresh_token_route (.valid p) now db).1 = .error .unauthorizedRefresh ∧
    get_user_by_email u.email (refresh_token_route (.valid p) now db).2 =
      some { u with refresh_token := none } := by
  have hroute : refresh_token_route (.valid p) now db =
      (.error .unauthorizedRefresh, update_token u.email none db) := by
    simp [refresh_token_route, decode_refresh_token_ok p now u.email hscope hsub hexp,
      get_user_by_email_opt, hfind, hne]
  rw [hroute, get_user_by_email_update_token, hfind]
  exact ⟨rfl, rfl⟩

theorem refresh_route_success (u : User) (db : List User) (now : Nat)
    (p : Payload) (hfind : get_user_by_email u.email db = some u)
    (hscope : p.scope = .val "refresh_token") (hsub : p.sub = .val u.email)
    (hexp : now < p.exp) (heq : u.refresh_token = some (.valid p)) :
    (refresh_token_route (.valid p) now db).1 =
      .ok ⟨create_access_token u.email now, create_refresh_token u.email now⟩ ∧
    get_user_by_email u.email (refresh_token_route (.valid p) now db).2 =
      some { u with refresh_token := some (create_refresh_token u.email now) } := by
  have hroute : refresh_token_route (.valid p) now db =
      (.ok ⟨create_access_token u.email now, create_refresh_token u.email now⟩,
        update_token u.email (some (create_refresh_token u.email now)) db) := by
    simp [refresh_token_route, decode_refresh_token_ok p now u.email hscope hsub hexp,
      get_user_by_email_opt, hfind, heq]
  rw [hroute, get_user_by_email_update_token, hfind]
  exact ⟨rfl, rfl⟩

/-- C1: only the refresh token currently stored on the user record is
accepted by the refresh endpoint.  (a) a token that decodes to the
user's email with scope refresh but is not the stored one fails 401
and nulls the stored token; (b) on a match both tokens are rotated and
the new refresh token becomes the stored one; (c) consequently, after
a successful refresh any refresh token other than the newly stored one
— in particular every previously issued one — fails 401. -/
theorem refresh_token_rotation_invariant (u : User) (db : List User)
    (now : Nat) (hfind : get_user_by_email u.email db = some u) :
    (∀ p : Payload, p.scope = .val "refresh_token" → p.sub = .val u.email →
      now < p.exp → u.refresh_token ≠ some (.valid p) →
      (refresh_token_route (.valid p) now db).1 = .error .unauthorizedRefresh ∧
      RErr.status .unauthorizedRefresh = 401 ∧
      get_user_by_email u.email (refresh_token_route (.valid p) now db).2 =
        some { u with refresh_token := none }) ∧
    (∀ p : Payload, p.scope = .val "refresh_token" → p.sub = .val u.email →
      now < p.exp → u.refresh_token = some (.valid p) →
      (refresh_token_route (.valid p) now db).1 =
        .ok ⟨create_access_token u.email now, create_refresh_token u.email now⟩ ∧
      get_user_by_email u.email (refresh_token_route (.valid p) now db).2 =
        some { u with refresh_token := some (create_refresh_token u.email now) }) ∧
    (∀ p : Payload, p.scope = .val "refresh_token" → p.sub = .val u.email →
      now < p.exp → u.refresh_token = some (.valid p) →
      ∀ p2 : Payload, p2.scope = .val "refresh_token" → p2.sub = .val u.email →
      TokenStr.valid p2 ≠ create_refresh_token u.email now →
      ∀ now2 : Nat, now2 < p2.exp →
      (refresh_token_route (.valid p2) now2
        (refresh_token_route (.valid p) now db).2).1 =
        .error .unauthorizedRefresh) := by
  refine ⟨?_, ?_, ?_⟩
  · intro p hscope hsub hexp hne
    have h := refresh_route_mismatch u db now p hfind hscope hsub hexp hne
    exact ⟨h.1, rfl, h.2⟩
  · intro p hscope hsub hexp heq
    exact refresh_route_success u db now p hfind hscope hsub hexp heq
  · intro p hscope hsub hexp heq p2 hscope2 hsub2 hne2 now2 hexp2
    have hsucc := refresh_route_success u db now p hfind hscope hsub hexp heq
    have hne' : ({ u with refresh_token := some (create_refresh_token u.email now)} : User).refresh_token ≠
        some (.valid p2) := by
      intro hcontra
      exact hne2 (by simpa using hcontra.symm)
    exact (refresh_route_mismatch
      { u with refresh_token := some (create_refresh_token u.email now) }
      (refresh_token_route (.valid p) now db).2 now2 p2 hsucc.2
      hscope2 hsub2 hexp2 hne').1

/-- Sample user with a stored refresh token, and the payload of that
token, for closed instances of the refresh claims. -/
def pStored : Payload := ⟨.val "bob@x", .val "refresh_token", 5, 1000⟩

def uWithTok : User := ⟨2, "bob", "bob@x", "pw", true, none, some (.valid pStored)⟩

/-- Closed instance of `refresh_token_rotation_invariant`: the stored
token refreshes successfully at time 100, after which the original
stored token (issued at time 5, distinct from the rotated one issued
at time 100) is rejected with 401. -/
theorem refresh_token_rotation_invariant_witness :
    ((refresh_token_route (.valid pStored) 100 [uWithTok]).1 =
      .ok ⟨create_access_token "bob@x" 100, create_refresh_token "bob@x" 100⟩ ∧
      get_user_by_email "bob@x" (refresh_token_route (.valid pStored) 100 [uWithTok]).2 =
        some { uWithTok with refresh_token := some (create_refresh_token "bob@x" 100) }) ∧
    (refresh_token_route (.valid pStored) 200
        (refresh_token_route (.valid pStored) 100 [uWithTok]).2).1 =
      .error .unauthorizedRefresh :=
  ⟨(refresh_token_rotation_invariant uWithTok [uWithTok] 100 rfl).2.1
      pStored rfl rfl (by decide) rfl,
    (refresh_token_rotation_invariant uWithTok [uWithTok] 100 rfl).2.2
      pStored rfl rfl (by decide) rfl pStored rfl rfl (by decide) 200 (by decide)⟩

/-- Unconfirmed sample user for the email-confirmation claims. -/
def uUnconf : User := ⟨3, "eve", "eve@x", "pw", false, none, none⟩

/-- C5 (counterexample): an access-scoped token presented to the
email-confirmation endpoint is accepted — its subject is extracted and
the account is confirmed — because `get_email_from_token` never looks
at the scope claim. -/
theorem confirm_email_accepts_access_scope :
    (create_access_token "eve@x" 0) =
      .valid ⟨.val "eve@x", .val "access_token", 0, 900⟩ ∧
    confirmed_email_route (create_access_token "eve@x" 0) 10 [uUnconf] =
      (.ok .emailConfirmed, [{ uUnconf with confirmed := true }]) :=
  ⟨rfl, rfl⟩

/-- C5 (amended): `get_email_from_token` decodes and returns the `sub`
claim of any validly signed, unexpired token — whatever its scope claim
is — and the confirmation endpoint then confirms the subject's account;
only signature/expiry failures (422) and an absent `sub` key
(`KeyError`) are rejected. -/
theorem get_email_from_token_ignores_scope (p : Payload) (now : Nat)
    (email : String) (hsub : p.sub = .val email) (hexp : now < p.exp) :
    get_email_from_token (.valid p) now = .ok (some email) ∧
    (∀ db u, get_user_by_email email db = some u → u.confirmed = false →
      confirmed_email_route (.valid p) now db =
        (.ok .emailConfirmed, confirmed_email email db)) := by
  have hget : get_email_from_token (.valid p) now = .ok (some email) := by
    simp [get_email_from_token, jwtDecode, entryGet, hsub, Nat.not_le.mpr hexp]
  refine ⟨hget, fun db u hu hconf => ?_⟩
  simp [confirmed_email_route, hget, get_user_by_email_opt, hu, hconf]

/-- Closed instance of `get_email_from_token_ignores_scope`, at a
refresh-scoped token. -/
theorem get_email_from_token_ignores_scope_witness :
    get_email_from_token (create_refresh_token "eve@x" 0) 10 = .ok (some "eve@x") ∧
    (∀ db u, get_user_by_email "eve@x" db = some u → u.confirmed = false →
      confirmed_email_route (create_refresh_token "eve@x" 0) 10 db =
        (.ok .emailConfirmed, confirmed_email "eve@x" db)) :=
  get_email_from_token_ignores_scope ⟨.val "eve@x", .val "refresh_token", 0, 604800⟩
    10 "eve@x" rfl (by decide)

/-- C6 (counterexample): a validly signed access-scoped token whose
payload simply lacks the `sub` key makes `get_current_user` raise an
uncaught `KeyError` (surfaced as 500), not the claimed 401. -/
theorem get_current_user_missing_sub_not_401 :
    get_current_user (.valid ⟨.absent, .val "access_token", 0, 100⟩) 0
      (fun _ => .miss) [] = .error .keyError ∧
    RErr.status .keyError = 500 :=
  ⟨rfl, rfl⟩

/-- C6 (amended): every failure of `get_current_user` is the 401
credentials error — provided the presented payload carries both the
`scope` and `sub` keys and the cache is reachable; a payload missing
either key instead raises `KeyError` (500), and an unreachable cache
raises the cache client's error. -/
theorem get_current_user_error_taxonomy (tok : TokenStr) (now : Nat)
    (cache : String → CacheRes) (db : List User) :
    ((∀ p, tok = .valid p → p.scope ≠ .absent ∧ p.sub ≠ .absent) →
      (∀ k, cache k ≠ .failure) →
      ∀ e, get_current_user tok now cache db = .error e → e.status = 401) ∧
    (∀ p, tok = .valid p → now < p.exp → p.scope = .absent →
      get_current_user tok now cache db = .error .keyError) ∧
    (∀ p, tok = .valid p → now < p.exp → p.scope = .val "access_token" →
      p.sub = .absent →
      get_current_user tok now cache db = .error .keyError) ∧
    (∀ p email, tok = .valid p → now < p.exp →
      p.scope = .val "access_token" → p.sub = .val email →
      cache email = .failure →
      get_current_user tok now cache db = .error .cacheFailure) := by
  refine ⟨?_, ?_, ?_, ?_⟩
  · intro hent hcache e he
    cases tok with
    | invalid =>
      simp [get_current_user, jwtDecode] at he
      exact he ▸ rfl
    | valid p =>
      rcases Nat.lt_or_ge now p.exp with hexp | hexp
      · have hk := hent p rfl
        rcases hscope : p.scope with _ | _ | s
        · exact absurd hscope hk.1
        · simp [get_current_user, jwtDecode, Nat.not_le.mpr hexp, entryGet,
            hscope] at he
          exact he ▸ rfl
        · by_cases hs : s = "access_token"
          · subst hs
            rcases hsub : p.sub with _ | _ | em
            · exact absurd hsub hk.2
            · simp [get_current_user, jwtDecode, Nat.not_le.mpr hexp, entryGet,
                hscope, hsub] at he
              exact he ▸ rfl
            · rcases hc : cache em with _ | u | _
              · cases hdb : get_user_by_email em db with
                | none =>
                  simp [get_current_user, jwtDecode, Nat.not_le.mpr hexp,
                    entryGet, hscope, hsub, cacheGet, hc, hdb] at he
                  exact he ▸ rfl
                | some u =>
                  simp [get_current_user, jwtDecode, Nat.not_le.mpr hexp,
                    entryGet, hscope, hsub, cacheGet, hc, hdb] at he
              · simp [get_current_user, jwtDecode, Nat.not_le.mpr hexp,
                  entryGet, hscope, hsub, cacheGet, hc] at he
              · exact absurd hc (hcache em)
          · simp [get_current_user, jwtDecode, Nat.not_le.mpr hexp, entryGet,
              hscope, hs] at he
            exact he ▸ rfl
      · simp [get_current_user, jwtDecode, hexp] at he
        exact he ▸ rfl
  · intro p htok hexp hscope
    subst htok
    simp [get_current_user, jwtDecode, Nat.not_le.mpr hexp, entryGet, hscope]
  · intro p htok hexp hscope hsub
    subst htok
    simp [get_current_user, jwtDecode, Nat.not_le.mpr hexp, entryGet, hscope,
      hsub]
  · intro p email htok hexp hscope hsub hc
    subst htok
    simp [get_current_user, jwtDecode, Nat.not_le.mpr hexp, entryGet, hscope,
      hsub, cacheGet, hc]

/-- Closed instance of `get_current_user_error_taxonomy`: a garbled
token fails with 401, a scope-less payload with `KeyError`. -/
theorem get_current_user_error_taxonomy_witness :
    RErr.status .unauthorizedCred = 401 ∧
    get_current_user (.valid ⟨.val "x@y", .absent, 0, 100⟩) 0
      (fun _ => .miss) [] = .error .keyError :=
  ⟨(get_current_user_error_taxonomy .invalid 0 (fun _ => .miss) []).1
      (fun _ h => TokenStr.noConfusion h) (fun _ h => CacheRes.noConfusion h)
      .unauthorizedCred rfl,
    (get_current_user_error_taxonomy (.valid ⟨.val "x@y", .absent, 0, 100⟩) 0
        (fun _ => .miss) []).2.1 ⟨.val "x@y", .absent, 0, 100⟩ rfl
      (by decide) rfl⟩

/-- C8 (counterexample): with the subject user present in the
datastore, a failing cache `get` does not fall through to the
datastore — the failure propagates out of `get_current_user`. -/
theorem cache_failure_raises :
    get_current_user (create_access_token "bob@x" 0) 10
      (fun _ => .failure) [uBob] = .error .cacheFailure ∧
    get_user_by_email "bob@x" [uBob] = some uBob :=
  ⟨rfl, rfl⟩

/-- C8 (amended): a cache miss falls through to the authoritative
datastore lookup, but cache unavailability does not — the cache
client's failure propagates to the caller. -/
theorem cache_miss_fallthrough (email : String) (iat tokExp now : Nat)
    (hexp : now < tokExp) (cache : String → CacheRes) (db : List User) :
    (cache email = .miss →
      get_current_user (.valid ⟨.val email, .val "access_token", iat, tokExp⟩)
          now cache db =
        match get_user_by_email email db with
        | some u => .ok u
        | none => .error .unauthorizedCred) ∧
    (cache email = .failure →
      get_current_user (.valid ⟨.val email, .val "access_token", iat, tokExp⟩)
          now cache db = .error .cacheFailure) := by
  constructor
  · intro hmiss
    cases hdb : get_user_by_email email db with
    | none =>
      simp [get_current_user, jwtDecode, Nat.not_le.mpr hexp, entryGet,
        cacheGet, hmiss, hdb]
    | some u =>
      simp [get_current_user, jwtDecode, Nat.not_le.mpr hexp, entryGet,
        cacheGet, hmiss, hdb]
  · intro hfail
    simp [get_current_user, jwtDecode, Nat.not_le.mpr hexp, entryGet,
      cacheGet, hfail]

/-- Closed instance of `cache_miss_fallthrough`. -/
theorem cache_miss_fallthrough_witness :
    get_current_user (.valid ⟨.val "bob@x", .val "access_token", 0, 900⟩) 10
      (fun _ => .miss) [uBob] =
      match get_user_by_email "bob@x" [uBob] with
      | some u => .ok u
      | none => .error .unauthorizedCred :=
  (cache_miss_fallthrough "bob@x" 0 900 10 (by decide)
    (fun _ => .miss) [uBob]).1 rfl

/-- C7 (divergence witness): `request_email` reads `user.confirmed`
before its `if user:` guard, so a registration-less email crashes with
an uncaught `AttributeError` (500) instead of the claimed 200 message;
registered users do get their messages. -/
theorem request_email_unknown_email_500 :
    request_email_route "ghost@example.com" [uBob, uUnconf] =
      .error .attributeError ∧
    RErr.status .attributeError = 500 ∧
    request_email_route "bob@x" [uBob, uUnconf] = .ok .alreadyConfirmed ∧
    request_email_route "eve@x" [uBob, uUnconf] = .ok .checkEmail :=
  ⟨rfl, rfl, rfl, rfl⟩
